import Mathlib

/-!
Verification of the fabric-deployment-platform core: configuration
resolution (deep merge, merged-config validation, template variables)
and deployment orchestration (single-customer phases, batch coordination).
Python dictionaries are embedded as insertion-ordered association lists
with unique keys; wall-clock times are abstracted to natural numbers;
exceptions are embedded as `Except` values.
-/

set_option autoImplicit false

namespace FabricDeployment

/-- A YAML/JSON-like configuration value: scalar or nested mapping.
Mirrors the dynamic values held in the Python configuration dictionaries. -/
inductive CVal where
  | str (s : String)
  | bool (b : Bool)
  | num (n : Int)
  | dict (entries : List (String × CVal))

/-- A configuration dictionary: insertion-ordered association list. -/
abbrev ConfigDict := List (String × CVal)

/-- Python `d.get(key)` / `key in d`: first entry with the given key. -/
def dget : ConfigDict → String → Option CVal
  | [], _ => none
  | (k1, v1) :: rest, k => if k1 = k then some v1 else dget rest k

/-- Python `d[key] = v`: replace the value at an existing key in place,
or append a fresh key at the end (dict insertion order). -/
def setKey : ConfigDict → String → CVal → ConfigDict
  | [], k, v => [(k, v)]
  | (k1, v1) :: rest, k, v =>
    if k1 = k then (k1, v) :: rest else (k1, v1) :: setKey rest k v

/-- Whether a value is a mapping (`isinstance(v, dict)` in the source). -/
def CVal.isDict : CVal → Bool
  | CVal.dict _ => true
  | _ => false

mutual

/-- Embeds `deep_merge` from `src/utils/helpers.py`: start from `dict1`
and fold the entries of `dict2` over it in order, merging recursively
when both sides hold a mapping at the same key. -/
def deep_merge : ConfigDict → ConfigDict → ConfigDict
  | dict1, [] => dict1
  | dict1, (k, v) :: rest => deep_merge (deep_merge_entry dict1 k v) rest
  termination_by structural _ d2 => d2

/-- One iteration of the `deep_merge` loop body: the `key in result`
and `isinstance(..., dict)` tests from `helpers.py` lines 36-40. -/
def deep_merge_entry (dict1 : ConfigDict) (k : String) (v : CVal) : ConfigDict :=
  match dget dict1 k, v with
  | some (CVal.dict m1), CVal.dict m2 => setKey dict1 k (CVal.dict (deep_merge m1 m2))
  | _, _ => setKey dict1 k v
  termination_by structural v

end

theorem deep_merge_nil (dict1 : ConfigDict) : deep_merge dict1 [] = dict1 := rfl

theorem deep_merge_cons (dict1 : ConfigDict) (k : String) (v : CVal)
    (rest : ConfigDict) :
    deep_merge dict1 ((k, v) :: rest) = deep_merge (deep_merge_entry dict1 k v) rest := rfl

theorem deep_merge_entry_eq (dict1 : ConfigDict) (k : String) (v : CVal) :
    deep_merge_entry dict1 k v =
      match dget dict1 k, v with
      | some (CVal.dict m1), CVal.dict m2 => setKey dict1 k (CVal.dict (deep_merge m1 m2))
      | _, _ => setKey dict1 k v := by
  unfold deep_merge_entry
  rfl

theorem dget_setKey_self (d : ConfigDict) (k : String) (v : CVal) :
    dget (setKey d k v) k = some v := by
  induction d with
  | nil => simp [setKey, dget]
  | cons hd tl ih =>
    obtain ⟨k1, v1⟩ := hd
    by_cases h : k1 = k
    · simp [setKey, dget, h]
    · simp [setKey, dget, h, ih]

theorem dget_setKey_ne (d : ConfigDict) (k k2 : String) (v : CVal) (h : k ≠ k2) :
    dget (setKey d k2 v) k = dget d k := by
  induction d with
  | nil => simp [setKey, dget, Ne.symm h]
  | cons hd tl ih =>
    obtain ⟨k1, v1⟩ := hd
    by_cases h1 : k1 = k2
    · subst h1
      simp [setKey, dget, Ne.symm h]
    · simp [setKey, dget, h1, ih]

theorem dget_eq_none_of_not_mem (d : ConfigDict) (k : String)
    (h : k ∉ d.map Prod.fst) : dget d k = none := by
  induction d with
  | nil => rfl
  | cons hd tl ih =>
    obtain ⟨k1, v1⟩ := hd
    simp only [List.map_cons, List.mem_cons, not_or] at h
    simp [dget, Ne.symm h.1, ih h.2]

/-- The pointwise reading of one `deep_merge` loop iteration. -/
theorem dget_deep_merge_entry (dict1 : ConfigDict) (k2 : String) (v : CVal)
    (k : String) :
    dget (deep_merge_entry dict1 k2 v) k =
      if k = k2 then
        match dget dict1 k2, v with
        | some (CVal.dict m1), CVal.dict m2 => some (CVal.dict (deep_merge m1 m2))
        | _, _ => some v
      else dget dict1 k := by
  rw [deep_merge_entry_eq]
  by_cases h : k = k2
  · subst h
    rw [if_pos rfl]
    cases hm : dget dict1 k with
    | none => cases v <;> simp [dget_setKey_self]
    | some v1 => cases v1 <;> cases v <;> simp [dget_setKey_self]
  · rw [if_neg h]
    cases hm : dget dict1 k2 with
    | none => cases v <;> simp [dget_setKey_ne _ _ _ _ h]
    | some v1 => cases v1 <;> cases v <;> simp [dget_setKey_ne _ _ _ _ h]

/-- Keys absent from the second dictionary are untouched by the merge. -/
theorem dget_deep_merge_of_not_mem (dict1 dict2 : ConfigDict) (k : String)
    (h : dget dict2 k = none) :
    dget (deep_merge dict1 dict2) k = dget dict1 k := by
  induction dict2 generalizing dict1 with
  | nil => rw [deep_merge_nil]
  | cons hd rest ih =>
    obtain ⟨k2, v⟩ := hd
    rw [deep_merge_cons]
    simp only [dget] at h
    by_cases hk : k2 = k
    · simp [hk] at h
    · simp only [if_neg hk] at h
      rw [ih _ h, dget_deep_merge_entry, if_neg (Ne.symm hk)]

/-- The defining pointwise law of `deep_merge`: keys unique to either side
keep their value, and a shared key holds the recursive merge when both
sides carry a mapping and the second side value otherwise.  The second
dictionary must have unique keys, as every Python dict does. -/
theorem dget_deep_merge (dict1 dict2 : ConfigDict)
    (hnd : (dict2.map Prod.fst).Nodup) (k : String) :
    dget (deep_merge dict1 dict2) k =
      match dget dict1 k, dget dict2 k with
      | some (CVal.dict m1), some (CVal.dict m2) => some (CVal.dict (deep_merge m1 m2))
      | _, some v2 => some v2
      | some v1, none => some v1
      | none, none => none := by
  induction dict2 generalizing dict1 with
  | nil =>
    rw [deep_merge_nil]
    cases h1 : dget dict1 k with
    | none => simp [dget]
    | some v1 => cases v1 <;> simp [dget]
  | cons hd rest ih =>
    obtain ⟨k2, v⟩ := hd
    simp only [List.map_cons, List.nodup_cons] at hnd
    obtain ⟨hk2, hrest⟩ := hnd
    rw [deep_merge_cons]
    by_cases hk : k = k2
    · subst hk
      have habs : dget rest k = none := dget_eq_none_of_not_mem rest k hk2
      rw [dget_deep_merge_of_not_mem _ _ _ habs, dget_deep_merge_entry, if_pos rfl]
      simp only [dget, if_pos rfl]
      cases h1 : dget dict1 k with
      | none => cases v <;> simp
      | some v1 => cases v1 <;> cases v <;> simp
    · rw [ih _ hrest, dget_deep_merge_entry, if_neg hk]
      simp only [dget, if_neg (Ne.symm hk)]

/-! ## Configuration loader (`src/config/loader.py`, `src/config/validator.py`) -/

/-- Python truthiness of an optional configuration value, as used by the
`if not config[...].get(...)` checks in `validator.py`. -/
def truthy : Option CVal → Bool
  | none => false
  | some (CVal.str s) => !s.isEmpty
  | some (CVal.bool b) => b
  | some (CVal.num n) => n != 0
  | some (CVal.dict d) => !d.isEmpty

/-- Embeds `ConfigValidator.validate_merged_config`: missing top-level
sections are collected together into one error, after which each field
check raises on the first violation found.  A raised `ValueError` is
embedded as `Except.error` carrying the re-raised message. -/
def validate_merged_config (config : ConfigDict) : Except String Unit :=
  let missing_sections :=
    ["customer", "architecture", "capacity"].filter (fun s => (dget config s).isNone)
  if !missing_sections.isEmpty then
    Except.error ("Merged config validation failed: Missing required configuration sections: "
      ++ String.intercalate ", " missing_sections)
  else
    match dget config "customer" with
    | some (CVal.dict customer) =>
      if !truthy (dget customer "name") then
        Except.error "Merged config validation failed: Customer name is required"
      else if !truthy (dget customer "prefix") then
        Except.error "Merged config validation failed: Customer prefix is required"
      else
        match dget config "architecture" with
        | some (CVal.dict architecture) =>
          match (dget architecture "medallion").getD (CVal.dict []) with
          | CVal.dict _ =>
            match dget config "capacity" with
            | some (CVal.dict capacity) =>
              if !truthy (dget capacity "fabric_capacity_id") then
                Except.error "Merged config validation failed: Fabric capacity ID is required"
              else if (dget config "workspace_id").isSome && !truthy (dget config "workspace_id") then
                Except.error "Merged config validation failed: Workspace ID cannot be empty"
              else
                Except.ok ()
            | _ => Except.error "Merged config validation failed: capacity section is not a mapping"
          | _ =>
            Except.error "Merged config validation failed: Architecture medallion configuration must be a dictionary"
        | _ => Except.error "Merged config validation failed: architecture section is not a mapping"
    | _ => Except.error "Merged config validation failed: customer section is not a mapping"

/-- The two cached default fragments returned by `ConfigLoader.load_defaults`:
the default architecture tree and the per-environment-category defaults. -/
structure DefaultsConfig where
  architecture : ConfigDict
  environments : List (String × ConfigDict)

/-- Embeds `ConfigLoader.load_merged_config` (loader.py lines 220-252):
merge order is defaults architecture, then customer base, then the
environment-category defaults, then the environment override; afterwards
the derived `environment` sub-tree is injected and the merged result is
validated.  File loading and schema validation of the individual layers
happen before this pipeline and are abstracted into the arguments. -/
def load_merged_config (defaults : DefaultsConfig) (customer_base env_override : ConfigDict)
    (environment : String) : Except String ConfigDict :=
  let merged1 := deep_merge [] defaults.architecture
  let merged2 := deep_merge merged1 customer_base
  let env_defaults := (defaults.environments.lookup environment).getD []
  let merged3 := deep_merge merged2 env_defaults
  let merged4 := deep_merge merged3 env_override
  let env_tree :=
    match dget env_override "workspace_id" with
    | some w => [("name", CVal.str environment), ("workspace_id", w)]
    | none => [("name", CVal.str environment)]
  let merged5 := setKey merged4 "environment" (CVal.dict env_tree)
  match validate_merged_config merged5 with
  | Except.ok _ => Except.ok merged5
  | Except.error e => Except.error e

/-- Modelled from the spec: the composition order stated in the spec
section 3 — global defaults, then environment-category defaults, then
customer base, then environment override — with the same derived
`environment` sub-tree injection, for comparison with `load_merged_config`. -/
def resolve_spec_order (defaults : DefaultsConfig) (customer_base env_override : ConfigDict)
    (environment : String) : ConfigDict :=
  let env_defaults := (defaults.environments.lookup environment).getD []
  let merged :=
    deep_merge (deep_merge (deep_merge defaults.architecture env_defaults) customer_base)
      env_override
  let env_tree :=
    match dget env_override "workspace_id" with
    | some w => [("name", CVal.str environment), ("workspace_id", w)]
    | none => [("name", CVal.str environment)]
  setKey merged "environment" (CVal.dict env_tree)

/-- Python `d1.update(d2)`: write every entry of `d2` into `d1` in order. -/
def dict_update (d1 d2 : ConfigDict) : ConfigDict :=
  d2.foldl (fun acc kv => setKey acc kv.1 kv.2) d1

/-- Embeds `merge_tags` from `src/utils/helpers.py`: start from an empty
dict and update with each tag dict in turn, later ones winning. -/
def merge_tags (tag_dicts : List ConfigDict) : ConfigDict :=
  tag_dicts.foldl (fun merged d => dict_update merged d) []

/-- Embeds `ConfigValidator.validate_template_variables`: the five
required sections must be present and customer, environment and tags
must be mappings. -/
def validate_template_variables (vars : ConfigDict) : Except String Unit :=
  let missing_vars :=
    ["customer", "environment", "architecture", "capacity", "tags"].filter
      (fun v => (dget vars v).isNone)
  if !missing_vars.isEmpty then
    Except.error ("Template variables validation failed: Missing required template variable sections: "
      ++ String.intercalate ", " missing_vars)
  else if !((dget vars "customer").getD (CVal.dict [])).isDict then
    Except.error "Template variables validation failed: Template variables customer must be a dictionary"
  else if !((dget vars "environment").getD (CVal.dict [])).isDict then
    Except.error "Template variables validation failed: Template variables environment must be a dictionary"
  else if !((dget vars "tags").getD (CVal.dict [])).isDict then
    Except.error "Template variables validation failed: Template variables tags must be a dictionary"
  else
    Except.ok ()

/-- Python `merged_config.get(key, {})` where the fetched value must then
behave as a mapping: absent keys default to an empty dict, a present
non-mapping value makes the subsequent attribute access raise. -/
def section_dict (config : ConfigDict) (k : String) : Except String ConfigDict :=
  match dget config k with
  | none => Except.ok []
  | some (CVal.dict d) => Except.ok d
  | some _ => Except.error ("section " ++ k ++ " is not a mapping")

/-- The part of `prepare_template_variables` after the in-place update of
the `environment` sub-map: builds the six-section template variables from
the (already mutated) merged configuration and validates them. -/
def build_template_variables (merged_config : ConfigDict) (environment now : String)
    (env_info : ConfigDict) : Except String ConfigDict :=
  match section_dict merged_config "customer" with
  | Except.error e => Except.error e
  | Except.ok customer_info =>
  match section_dict merged_config "architecture" with
  | Except.error e => Except.error e
  | Except.ok arch_section =>
  let architecture := (dget arch_section "medallion").getD (CVal.dict [])
  match section_dict merged_config "capacity" with
  | Except.error e => Except.error e
  | Except.ok capacity_base =>
  match
    (match dget merged_config "capacity_settings" with
     | none => Except.ok capacity_base
     | some (CVal.dict cs) => Except.ok (dict_update capacity_base cs)
     | some _ => Except.error "capacity_settings is not a mapping") with
  | Except.error e => Except.error e
  | Except.ok capacity_info =>
  match section_dict merged_config "advanced" with
  | Except.error e => Except.error e
  | Except.ok advanced =>
  match
    (match (dget advanced "custom_tags").getD (CVal.dict []) with
     | CVal.dict ct => Except.ok ct
     | _ => Except.error "custom_tags is not a mapping") with
  | Except.error e => Except.error e
  | Except.ok customer_tags =>
  match
    (match (dget merged_config "environment_tags").getD (CVal.dict []) with
     | CVal.dict et => Except.ok et
     | _ => Except.error "environment_tags is not a mapping") with
  | Except.error e => Except.error e
  | Except.ok environment_tags =>
  let all_tags := merge_tags [customer_tags, environment_tags]
  let deployment_info : ConfigDict :=
    [("timestamp", CVal.str now), ("version", CVal.str "1.0.0"),
     ("customer", (dget customer_info "name").getD (CVal.str "")),
     ("environment", CVal.str environment)]
  let template_variables : ConfigDict :=
    [("customer", CVal.dict customer_info),
     ("environment", CVal.dict env_info),
     ("architecture", architecture),
     ("capacity", CVal.dict capacity_info),
     ("tags", CVal.dict all_tags),
     ("deployment", CVal.dict deployment_info)]
  match validate_template_variables template_variables with
  | Except.error e => Except.error e
  | Except.ok _ => Except.ok template_variables

/-- Embeds `ConfigLoader.prepare_template_variables` (loader.py lines
281-331) with the in-place mutation made explicit: the first component is
the merged configuration as the caller observes it after the call (its
`environment` sub-map updated in place with `name` and `debug_mode`),
and the second is the raised-or-returned template variables.  The wall
clock read for the deployment timestamp is passed in as `now`. -/
def prepare_template_variables (merged_config : ConfigDict) (environment now : String) :
    ConfigDict × Except String ConfigDict :=
  match dget merged_config "environment" with
  | some (CVal.dict env_dict) =>
    let debug_mode := (dget merged_config "debug_mode").getD (CVal.bool false)
    let env_info := setKey (setKey env_dict "name" (CVal.str environment)) "debug_mode" debug_mode
    let merged_after := setKey merged_config "environment" (CVal.dict env_info)
    (merged_after, build_template_variables merged_after environment now env_info)
  | some _ =>
    (merged_config, Except.error "environment section does not support update")
  | none =>
    let debug_mode := (dget merged_config "debug_mode").getD (CVal.bool false)
    let env_info := setKey (setKey [] "name" (CVal.str environment)) "debug_mode" debug_mode
    (merged_config, build_template_variables merged_config environment now env_info)

/-! ## Deployment data model (`src/deployment/models.py`) -/

/-- `DeploymentStatus` enumeration. -/
inductive DeploymentStatus where
  | NOT_DEPLOYED
  | DEPLOYING
  | DEPLOYED
  | FAILED
  | DESTROYING
deriving DecidableEq, Repr

/-- `DeploymentPhase` enumeration, in order. -/
inductive DeploymentPhase where
  | VALIDATION
  | PLANNING
  | INFRASTRUCTURE
  | ARTIFACTS
  | VERIFICATION
deriving DecidableEq, Repr

/-- `ValidationResult` dataclass: every field is stored exactly as the
caller passes it, with the same dataclass defaults. -/
structure ValidationResult where
  success : Bool
  errors : List String := []
  warnings : List String := []
  checks_performed : List String := []
deriving DecidableEq, Repr

/-- `ValidationResult.has_errors` property. -/
def ValidationResult.has_errors (r : ValidationResult) : Bool :=
  r.errors.length > 0

/-- `TerraformResult` dataclass; durations are abstracted to naturals. -/
structure TerraformResult where
  success : Bool
  command : String := ""
  exit_code : Int := 0
  stdout : String := ""
  stderr : String := ""
  duration : Nat := 0
  outputs : List (String × String) := []
  errors : List String := []
deriving DecidableEq, Repr

/-- `TerraformPlan` dataclass (fields the orchestrator reads). -/
structure TerraformPlan where
  customer_name : String
  environment : String
  has_changes : Bool := false
  plan_output : String := ""
deriving DecidableEq, Repr

/-- `ArtifactCollection` dataclass; artifact paths are plain strings. -/
structure ArtifactCollection where
  customer_name : String
  environment : String
  lakehouses : List String := []
  pipelines : List String := []
  notebooks : List String := []
deriving DecidableEq, Repr

/-- `ArtifactCollection.total_count` property. -/
def ArtifactCollection.total_count (a : ArtifactCollection) : Nat :=
  a.lakehouses.length + a.pipelines.length + a.notebooks.length

/-- `ArtifactCollection.all_artifacts` property. -/
def ArtifactCollection.all_artifacts (a : ArtifactCollection) : List String :=
  a.lakehouses ++ a.pipelines ++ a.notebooks

/-- `DeploymentResult` dataclass: the mutable per-attempt accumulator.
Timestamps are abstract naturals; `none` is an unset `None` field. -/
structure DeploymentResult where
  customer_name : String
  environment : String
  status : DeploymentStatus
  success : Bool
  artifacts_deployed : List String := []
  workspace_id : String := ""
  deployment_time : Nat := 0
  terraform_outputs : List (String × String) := []
  errors : List String := []
  warnings : List String := []
  phases_completed : List DeploymentPhase := []
  started_at : Option Nat := none
  completed_at : Option Nat := none
deriving DecidableEq, Repr

/-- `DeploymentResult.add_error`: appends the error and couples it with
`success = False` and `status = FAILED`. -/
def DeploymentResult.add_error (r : DeploymentResult) (error : String) : DeploymentResult :=
  { r with errors := r.errors ++ [error], success := false,
           status := DeploymentStatus.FAILED }

/-- `DeploymentResult.add_warning`: appends the warning only. -/
def DeploymentResult.add_warning (r : DeploymentResult) (warning : String) : DeploymentResult :=
  { r with warnings := r.warnings ++ [warning] }

/-- `BatchDeploymentResult` dataclass. -/
structure BatchDeploymentResult where
  environment : String
  total_customers : Nat
  successful_deployments : List DeploymentResult := []
  failed_deployments : List DeploymentResult := []
  started_at : Option Nat := none
  completed_at : Option Nat := none
deriving DecidableEq, Repr

/-- `BatchDeploymentResult.success_count` property. -/
def BatchDeploymentResult.success_count (b : BatchDeploymentResult) : Nat :=
  b.successful_deployments.length

/-- `BatchDeploymentResult.failure_count` property. -/
def BatchDeploymentResult.failure_count (b : BatchDeploymentResult) : Nat :=
  b.failed_deployments.length

/-- `BatchDeploymentResult.overall_success` property. -/
def BatchDeploymentResult.overall_success (b : BatchDeploymentResult) : Bool :=
  b.failure_count == 0

/-- `PrerequisiteCheck` dataclass: five independent boolean facts. -/
structure PrerequisiteCheck where
  terraform_available : Bool := false
  configuration_valid : Bool := false
  artifacts_present : Bool := false
  workspace_accessible : Bool := false
  credentials_valid : Bool := false
deriving DecidableEq, Repr

/-- `PrerequisiteCheck.all_met` property: the conjunction. -/
def PrerequisiteCheck.all_met (p : PrerequisiteCheck) : Bool :=
  p.terraform_available && p.configuration_valid && p.artifacts_present &&
    p.workspace_accessible && p.credentials_valid

/-- `PrerequisiteCheck.failed_checks` property: names of the false facts
in the fixed canonical order. -/
def PrerequisiteCheck.failed_checks (p : PrerequisiteCheck) : List String :=
  (if p.terraform_available then [] else ["terraform_available"]) ++
  (if p.configuration_valid then [] else ["configuration_valid"]) ++
  (if p.artifacts_present then [] else ["artifacts_present"]) ++
  (if p.workspace_accessible then [] else ["workspace_accessible"]) ++
  (if p.credentials_valid then [] else ["credentials_valid"])

/-- `DeploymentPlan` dataclass. -/
structure DeploymentPlan where
  customer_name : String
  environment : String
  artifacts : ArtifactCollection
  terraform_plan : TerraformPlan
  validation_result : ValidationResult
  estimated_duration : Nat := 0
  prerequisite_checks : List String := []
deriving DecidableEq, Repr

/-- `PhaseResults` dataclass: the fields `_execute_deployment_phases`
can set.  The `planning` field holds no success flag in the source, so it
never affects `all_successful` and is omitted. -/
structure PhaseResults where
  validation : Option ValidationResult := none
  infrastructure : Option TerraformResult := none
  artifacts : Option TerraformResult := none
  verification : Option ValidationResult := none
deriving DecidableEq, Repr

/-- `PhaseResults.all_successful`: unset phases count as successful. -/
def PhaseResults.all_successful (p : PhaseResults) : Bool :=
  (match p.validation with | some v => v.success | none => true) &&
  (match p.infrastructure with | some t => t.success | none => true) &&
  (match p.artifacts with | some t => t.success | none => true) &&
  (match p.verification with | some v => v.success | none => true)

/-! ## Deployment orchestrator (`src/deployment/orchestrator.py`) -/

/-- The Terraform wrapper operations the orchestrator can invoke;
recorded as an observable call trace. -/
inductive TfOp where
  | init
  | apply
  | destroy
  | getOutputs
  | getState
deriving DecidableEq, Repr

/-- `_estimate_deployment_duration`: 60 second base plus 30 per artifact. -/
def estimate_deployment_duration (artifacts : ArtifactCollection) : Nat :=
  60 + artifacts.total_count * 30

/-- Outcomes of the collaborators `plan_deployment` consults, for one
call: artifact discovery, prerequisite validation, and the Terraform
plan, each of which can raise. -/
structure PlanEnv where
  artifacts_outcome : Except String ArtifactCollection
  prereq_outcome : Except String PrerequisiteCheck
  terraform_plan_outcome : Except String TerraformPlan
deriving Repr

/-- Embeds `plan_deployment` (orchestrator.py lines 254-317): discover
artifacts, check prerequisites, build the embedded `ValidationResult`
(unmet prerequisite names listed verbatim), call the Terraform plan, and
wrap any raised exception into `DeploymentException("Planning failed: ...")`. -/
def plan_deployment (env : PlanEnv) (customer_name environment : String) :
    Except String DeploymentPlan :=
  match env.artifacts_outcome with
  | Except.error e => Except.error ("Planning failed: " ++ e)
  | Except.ok artifacts =>
  match env.prereq_outcome with
  | Except.error e => Except.error ("Planning failed: " ++ e)
  | Except.ok prereq_check =>
  let validation_result : ValidationResult :=
    if !prereq_check.all_met then
      { success := false,
        errors := ["Prerequisites not met: " ++ String.intercalate ", " prereq_check.failed_checks] }
    else
      { success := true }
  match env.terraform_plan_outcome with
  | Except.error e => Except.error ("Planning failed: " ++ e)
  | Except.ok terraform_plan =>
    Except.ok
      { customer_name := customer_name,
        environment := environment,
        artifacts := artifacts,
        terraform_plan := terraform_plan,
        validation_result := validation_result,
        estimated_duration := estimate_deployment_duration artifacts,
        prerequisite_checks := prereq_check.failed_checks }

/-- Outcomes of every collaborator `deploy_customer` consults during one
call, plus the abstract start and end clock readings. -/
structure OrchEnv where
  start_time : Nat := 0
  end_time : Nat := 0
  validation : ValidationResult
  plan_env : PlanEnv
  merged_config_outcome : Except String Unit
  init_outcome : Except String TerraformResult
  apply_outcome : Except String TerraformResult
  verify_ok : Bool
  outputs_outcome : Except String (List (String × String))
deriving Repr

/-- Embeds `_execute_deployment_phases` (orchestrator.py lines 446-468):
init, then apply; a failed init is recorded and stops before apply; an
exception from either call is swallowed and leaves the phase results as
they were at that point.  The second component is the wrapper call trace. -/
def execute_deployment_phases (env : OrchEnv) : PhaseResults × List TfOp :=
  match env.init_outcome with
  | Except.error _ => ({}, [TfOp.init])
  | Except.ok init_result =>
    if !init_result.success then
      ({ infrastructure := some init_result }, [TfOp.init])
    else
      match env.apply_outcome with
      | Except.error _ => ({}, [TfOp.init, TfOp.apply])
      | Except.ok apply_result =>
        ({ infrastructure := some apply_result, artifacts := some apply_result },
         [TfOp.init, TfOp.apply])

/-- Embeds `deploy_customer` (orchestrator.py lines 70-195): the phased
single-customer state machine.  Returns the `DeploymentResult` together
with the trace of Terraform wrapper operations invoked in phases 3-5. -/
def deploy_customer (env : OrchEnv) (customer_name environment : String)
    (dry_run : Bool) : DeploymentResult × List TfOp :=
  let result : DeploymentResult :=
    { customer_name := customer_name, environment := environment,
      status := DeploymentStatus.DEPLOYING, success := false,
      started_at := some env.start_time }
  if !env.validation.success then
    (result.add_error ("Validation failed: " ++ String.intercalate "; " env.validation.errors), [])
  else
    let result := { result with
      phases_completed := result.phases_completed ++ [DeploymentPhase.VALIDATION] }
    match plan_deployment env.plan_env customer_name environment with
    | Except.error e =>
      ({ result.add_error e with
          deployment_time := env.end_time - env.start_time,
          completed_at := some env.end_time }, [])
    | Except.ok deployment_plan =>
      if !deployment_plan.validation_result.success then
        (result.add_error ("Planning failed: "
            ++ String.intercalate "; " deployment_plan.validation_result.errors), [])
      else
        let result := { result with
          phases_completed := result.phases_completed ++ [DeploymentPhase.PLANNING] }
        if dry_run then
          ({ result with
              success := true, status := DeploymentStatus.DEPLOYED,
              deployment_time := env.end_time - env.start_time,
              completed_at := some env.end_time }, [])
        else
          match env.merged_config_outcome with
          | Except.error e =>
            ({ result.add_error e with
                deployment_time := env.end_time - env.start_time,
                completed_at := some env.end_time }, [])
          | Except.ok _ =>
            let phases := execute_deployment_phases env
            if !phases.1.all_successful then
              (result.add_error "Infrastructure deployment failed", phases.2)
            else
              let result := { result with
                phases_completed := result.phases_completed
                  ++ [DeploymentPhase.INFRASTRUCTURE, DeploymentPhase.ARTIFACTS] }
              let result :=
                if env.verify_ok then
                  { result with
                    phases_completed := result.phases_completed ++ [DeploymentPhase.VERIFICATION] }
                else result
              let result := { result with
                success := true, status := DeploymentStatus.DEPLOYED,
                deployment_time := env.end_time - env.start_time,
                completed_at := some env.end_time }
              let result :=
                match env.outputs_outcome with
                | Except.ok outs =>
                  { result with
                    terraform_outputs := outs,
                    workspace_id := (outs.lookup "workspace_id").getD "" }
                | Except.error e =>
                  result.add_warning ("Failed to get Terraform outputs: " ++ e)
              let result := { result with
                artifacts_deployed := deployment_plan.artifacts.all_artifacts }
              (result, phases.2 ++ [TfOp.getOutputs, TfOp.getOutputs])

/-! ## Batch coordination (orchestrator.py lines 197-252 and 480-539) -/

/-- What one per-customer deployment worker does: return a result, or
raise an exception carrying a message. -/
inductive WorkerOutcome where
  | returned (result : DeploymentResult)
  | raised (message : String)
deriving DecidableEq, Repr

/-- The synthetic failed result the batch loops build from a worker
exception: fresh `DeploymentResult` with status FAILED and success False,
then `add_error(str(e))`. -/
def synthetic_failed_result (customer environment message : String) : DeploymentResult :=
  DeploymentResult.add_error
    { customer_name := customer, environment := environment,
      status := DeploymentStatus.FAILED, success := false }
    message

/-- Embeds `_deploy_customers_sequential` (orchestrator.py lines 516-539):
iterate customers in input order; append returned results to the matching
list; convert a raised exception into a synthetic failed result; stop at
the first failure unless `continue_on_error`.  The second component is
the list of customers actually attempted, in order. -/
def deploy_customers_sequential (deploy : String → WorkerOutcome) (environment : String)
    (continue_on_error : Bool) :
    List String → BatchDeploymentResult → BatchDeploymentResult × List String
  | [], batch => (batch, [])
  | customer :: rest, batch =>
    match deploy customer with
    | WorkerOutcome.returned result =>
      if result.success then
        let next := deploy_customers_sequential deploy environment continue_on_error rest
          { batch with successful_deployments := batch.successful_deployments ++ [result] }
        (next.1, customer :: next.2)
      else
        let batch := { batch with failed_deployments := batch.failed_deployments ++ [result] }
        if continue_on_error then
          let next := deploy_customers_sequential deploy environment continue_on_error rest batch
          (next.1, customer :: next.2)
        else
          (batch, [customer])
    | WorkerOutcome.raised message =>
      let batch := { batch with failed_deployments :=
        batch.failed_deployments ++ [synthetic_failed_result customer environment message] }
      if continue_on_error then
        let next := deploy_customers_sequential deploy environment continue_on_error rest batch
        (next.1, customer :: next.2)
      else
        (batch, [customer])

/-- Embeds the sequential branch of `deploy_multiple_customers`
(orchestrator.py lines 197-252): build the batch result with
`total_customers = len(customers)` and run the sequential loop. -/
def deploy_multiple_customers_sequential (deploy : String → WorkerOutcome)
    (customers : List String) (environment : String) (continue_on_error : Bool) :
    BatchDeploymentResult × List String :=
  deploy_customers_sequential deploy environment continue_on_error customers
    { environment := environment, total_customers := customers.length }

/-- Embeds the result-collection loop of `_deploy_customers_parallel`
(orchestrator.py lines 480-514) over an arbitrary completion order:
each drained future either returned a result or raised.  A returned
failure stops draining when not `continue_on_error`; a raised exception
is converted into a synthetic failed result and never stops the loop. -/
def deploy_customers_parallel_drain (environment : String) (continue_on_error : Bool) :
    List (String × WorkerOutcome) → BatchDeploymentResult → BatchDeploymentResult
  | [], batch => batch
  | (customer, outcome) :: rest, batch =>
    match outcome with
    | WorkerOutcome.returned result =>
      if result.success then
        deploy_customers_parallel_drain environment continue_on_error rest
          { batch with successful_deployments := batch.successful_deployments ++ [result] }
      else
        let batch := { batch with failed_deployments := batch.failed_deployments ++ [result] }
        if continue_on_error then
          deploy_customers_parallel_drain environment continue_on_error rest batch
        else
          batch
    | WorkerOutcome.raised message =>
      deploy_customers_parallel_drain environment continue_on_error rest
        { batch with failed_deployments :=
          batch.failed_deployments ++ [synthetic_failed_result customer environment message] }

/-- Embeds the parallel branch of `deploy_multiple_customers`:
`completions` is the nondeterministic completion order of the submitted
workers, one entry per customer whose future was drained. -/
def deploy_multiple_customers_parallel (completions : List (String × WorkerOutcome))
    (customers : List String) (environment : String) (continue_on_error : Bool) :
    BatchDeploymentResult :=
  deploy_customers_parallel_drain environment continue_on_error completions
    { environment := environment, total_customers := customers.length }

/-! ## Batch coordination lemmas -/

theorem seq_total_customers (deploy : String → WorkerOutcome) (environment : String)
    (continue_on_error : Bool) :
    ∀ (customers : List String) (batch : BatchDeploymentResult),
      (deploy_customers_sequential deploy environment continue_on_error customers batch).1.total_customers
        = batch.total_customers := by
  intro customers
  induction customers with
  | nil => intro batch; rfl
  | cons c rest ih =>
    intro batch
    cases hd : deploy c with
    | returned r =>
      cases hr : r.success with
      | true => simp [deploy_customers_sequential, hd, hr, ih]
      | false =>
        cases continue_on_error with
        | true => simp [deploy_customers_sequential, hd, hr, ih]
        | false => simp [deploy_customers_sequential, hd, hr]
    | raised msg =>
      cases continue_on_error with
      | true => simp [deploy_customers_sequential, hd, ih]
      | false => simp [deploy_customers_sequential, hd]

theorem seq_counts_continue (deploy : String → WorkerOutcome) (environment : String) :
    ∀ (customers : List String) (batch : BatchDeploymentResult),
      (deploy_customers_sequential deploy environment true customers batch).1.success_count
        + (deploy_customers_sequential deploy environment true customers batch).1.failure_count
      = batch.success_count + batch.failure_count + customers.length := by
  intro customers
  induction customers with
  | nil => intro batch; simp [deploy_customers_sequential]
  | cons c rest ih =>
    intro batch
    cases hd : deploy c with
    | returned r =>
      cases hr : r.success with
      | true =>
        have h := ih { batch with
          successful_deployments := batch.successful_deployments ++ [r] }
        simp only [deploy_customers_sequential, hd, hr] at h ⊢
        simp [BatchDeploymentResult.success_count, BatchDeploymentResult.failure_count] at h ⊢
        omega
      | false =>
        have h := ih { batch with
          failed_deployments := batch.failed_deployments ++ [r] }
        simp only [deploy_customers_sequential, hd, hr] at h ⊢
        simp [BatchDeploymentResult.success_count, BatchDeploymentResult.failure_count] at h ⊢
        omega
    | raised msg =>
      have h := ih { batch with failed_deployments :=
        batch.failed_deployments ++ [synthetic_failed_result c environment msg] }
      simp only [deploy_customers_sequential, hd] at h ⊢
      simp [BatchDeploymentResult.success_count, BatchDeploymentResult.failure_count] at h ⊢
      omega

theorem seq_counts_le (deploy : String → WorkerOutcome) (environment : String)
    (continue_on_error : Bool) :
    ∀ (customers : List String) (batch : BatchDeploymentResult),
      (deploy_customers_sequential deploy environment continue_on_error customers batch).1.success_count
        + (deploy_customers_sequential deploy environment continue_on_error customers batch).1.failure_count
      ≤ batch.success_count + batch.failure_count + customers.length := by
  intro customers
  induction customers with
  | nil => intro batch; simp [deploy_customers_sequential]
  | cons c rest ih =>
    intro batch
    cases hd : deploy c with
    | returned r =>
      cases hr : r.success with
      | true =>
        have h := ih { batch with
          successful_deployments := batch.successful_deployments ++ [r] }
        simp only [deploy_customers_sequential, hd, hr] at h ⊢
        simp [BatchDeploymentResult.success_count, BatchDeploymentResult.failure_count] at h ⊢
        omega
      | false =>
        cases continue_on_error with
        | true =>
          have h := ih { batch with
            failed_deployments := batch.failed_deployments ++ [r] }
          simp only [deploy_customers_sequential, hd, hr] at h ⊢
          simp [BatchDeploymentResult.success_count, BatchDeploymentResult.failure_count] at h ⊢
          omega
        | false =>
          simp [deploy_customers_sequential, hd, hr,
            BatchDeploymentResult.success_count, BatchDeploymentResult.failure_count]
          omega
    | raised msg =>
      cases continue_on_error with
      | true =>
        have h := ih { batch with failed_deployments :=
          batch.failed_deployments ++ [synthetic_failed_result c environment msg] }
        simp only [deploy_customers_sequential, hd] at h ⊢
        simp [BatchDeploymentResult.success_count, BatchDeploymentResult.failure_count] at h ⊢
        omega
      | false =>
        simp [deploy_customers_sequential, hd,
          BatchDeploymentResult.success_count, BatchDeploymentResult.failure_count]
        omega

theorem par_total_customers (environment : String) (continue_on_error : Bool) :
    ∀ (completions : List (String × WorkerOutcome)) (batch : BatchDeploymentResult),
      (deploy_customers_parallel_drain environment continue_on_error completions batch).total_customers
        = batch.total_customers := by
  intro completions
  induction completions with
  | nil => intro batch; rfl
  | cons hd rest ih =>
    intro batch
    obtain ⟨c, outcome⟩ := hd
    cases outcome with
    | returned r =>
      cases hr : r.success with
      | true => simp [deploy_customers_parallel_drain, hr, ih]
      | false =>
        cases continue_on_error with
        | true => simp [deploy_customers_parallel_drain, hr, ih]
        | false => simp [deploy_customers_parallel_drain, hr]
    | raised msg => simp [deploy_customers_parallel_drain, ih]

theorem par_counts_continue (environment : String) :
    ∀ (completions : List (String × WorkerOutcome)) (batch : BatchDeploymentResult),
      (deploy_customers_parallel_drain environment true completions batch).success_count
        + (deploy_customers_parallel_drain environment true completions batch).failure_count
      = batch.success_count + batch.failure_count + completions.length := by
  intro completions
  induction completions with
  | nil => intro batch; simp [deploy_customers_parallel_drain]
  | cons hd rest ih =>
    intro batch
    obtain ⟨c, outcome⟩ := hd
    cases outcome with
    | returned r =>
      cases hr : r.success with
      | true =>
        have h := ih { batch with
          successful_deployments := batch.successful_deployments ++ [r] }
        simp only [deploy_customers_parallel_drain, hr] at h ⊢
        simp [BatchDeploymentResult.success_count, BatchDeploymentResult.failure_count] at h ⊢
        omega
      | false =>
        have h := ih { batch with
          failed_deployments := batch.failed_deployments ++ [r] }
        simp only [deploy_customers_parallel_drain, hr] at h ⊢
        simp [BatchDeploymentResult.success_count, BatchDeploymentResult.failure_count] at h ⊢
        omega
    | raised msg =>
      have h := ih { batch with failed_deployments :=
        batch.failed_deployments ++ [synthetic_failed_result c environment msg] }
      simp only [deploy_customers_parallel_drain] at h ⊢
      simp [BatchDeploymentResult.success_count, BatchDeploymentResult.failure_count] at h ⊢
      omega

/-! ## Claim C3 -/

/-- The deployment outcomes used in the C3 concrete batch run. -/
def claim3_failed_result : DeploymentResult :=
  { customer_name := "a", environment := "dev",
    status := DeploymentStatus.FAILED, success := false }

/-- A successful outcome for the C3 concrete batch run. -/
def claim3_ok_result : DeploymentResult :=
  { customer_name := "b", environment := "dev",
    status := DeploymentStatus.DEPLOYED, success := true }

/-- The worker behaviour for the C3 concrete batch run: customer `a`
fails, every other customer succeeds. -/
def claim3_deploy (customer : String) : WorkerOutcome :=
  if customer = "a" then WorkerOutcome.returned claim3_failed_result
  else WorkerOutcome.returned claim3_ok_result

/-- C3 counterexample: a sequential batch of two customers with
`continue_on_error = false` whose first customer fails stops early and
records only one result, so `success_count + failure_count = 1` while
`total_customers = 2` — the claimed invariant fails on this run. -/
theorem claim3_counterexample :
    (deploy_multiple_customers_sequential claim3_deploy ["a", "b"] "dev" false).1.total_customers = 2 ∧
    (deploy_multiple_customers_sequential claim3_deploy ["a", "b"] "dev" false).1.success_count = 0 ∧
    (deploy_multiple_customers_sequential claim3_deploy ["a", "b"] "dev" false).1.failure_count = 1 ∧
    ¬ ((deploy_multiple_customers_sequential claim3_deploy ["a", "b"] "dev" false).1.success_count
        + (deploy_multiple_customers_sequential claim3_deploy ["a", "b"] "dev" false).1.failure_count
      = (deploy_multiple_customers_sequential claim3_deploy ["a", "b"] "dev" false).1.total_customers) := by
  decide

/-- C3 as amended: `overall_success` is exactly `failure_count == 0` for
every batch result; `success_count + failure_count = total_customers`
holds for every run that records one result per customer — all sequential
runs with `continue_on_error = true`, and all parallel runs that drain one
completion per customer — while in general a run stopped early by a
failure under `continue_on_error = false` satisfies only
`success_count + failure_count ≤ total_customers`. -/
theorem claim3_amended :
    (∀ (deploy : String → WorkerOutcome) (customers : List String) (environment : String),
      (deploy_multiple_customers_sequential deploy customers environment true).1.success_count
        + (deploy_multiple_customers_sequential deploy customers environment true).1.failure_count
      = (deploy_multiple_customers_sequential deploy customers environment true).1.total_customers) ∧
    (∀ (deploy : String → WorkerOutcome) (customers : List String) (environment : String)
        (continue_on_error : Bool),
      (deploy_multiple_customers_sequential deploy customers environment continue_on_error).1.success_count
        + (deploy_multiple_customers_sequential deploy customers environment continue_on_error).1.failure_count
      ≤ (deploy_multiple_customers_sequential deploy customers environment continue_on_error).1.total_customers) ∧
    (∀ (completions : List (String × WorkerOutcome)) (customers : List String)
        (environment : String),
      completions.length = customers.length →
      (deploy_multiple_customers_parallel completions customers environment true).success_count
        + (deploy_multiple_customers_parallel completions customers environment true).failure_count
      = (deploy_multiple_customers_parallel completions customers environment true).total_customers) ∧
    (∀ b : BatchDeploymentResult, b.overall_success = true ↔ b.failure_count = 0) := by
  refine ⟨?_, ?_, ?_, ?_⟩
  · intro deploy customers environment
    rw [deploy_multiple_customers_sequential, seq_total_customers, seq_counts_continue]
    simp [BatchDeploymentResult.success_count, BatchDeploymentResult.failure_count]
  · intro deploy customers environment continue_on_error
    rw [deploy_multiple_customers_sequential, seq_total_customers]
    have h := seq_counts_le deploy environment continue_on_error customers
      { environment := environment, total_customers := customers.length }
    simpa [BatchDeploymentResult.success_count, BatchDeploymentResult.failure_count] using h
  · intro completions customers environment hlen
    rw [deploy_multiple_customers_parallel, par_total_customers, par_counts_continue]
    simp [BatchDeploymentResult.success_count, BatchDeploymentResult.failure_count, hlen]
  · intro b
    simp [BatchDeploymentResult.overall_success]

/-- C3 amended witness: the parallel-count identity applied to a concrete
one-customer run. -/
theorem claim3_amended_witness :
    ([("b", WorkerOutcome.returned claim3_ok_result)].length = (["b"] : List String).length) ∧
    (deploy_multiple_customers_parallel [("b", WorkerOutcome.returned claim3_ok_result)]
        ["b"] "dev" true).success_count
      + (deploy_multiple_customers_parallel [("b", WorkerOutcome.returned claim3_ok_result)]
        ["b"] "dev" true).failure_count
      = (deploy_multiple_customers_parallel [("b", WorkerOutcome.returned claim3_ok_result)]
        ["b"] "dev" true).total_customers :=
  ⟨rfl, claim3_amended.2.2.1 [("b", WorkerOutcome.returned claim3_ok_result)] ["b"] "dev" rfl⟩

theorem seq_stop_characterization (deploy : String → WorkerOutcome)
    (rmap : String → DeploymentResult) (environment : String) (c : String)
    (rc : DeploymentResult) (post : List String)
    (hc : deploy c = WorkerOutcome.returned rc) (hrc : rc.success = false) :
    ∀ (pre : List String) (batch : BatchDeploymentResult),
      (∀ d ∈ pre, deploy d = WorkerOutcome.returned (rmap d) ∧ (rmap d).success = true) →
      deploy_customers_sequential deploy environment false (pre ++ c :: post) batch =
        ({ batch with
            successful_deployments := batch.successful_deployments ++ pre.map rmap,
            failed_deployments := batch.failed_deployments ++ [rc] },
         pre ++ [c]) := by
  intro pre
  induction pre with
  | nil =>
    intro batch hpre
    simp [deploy_customers_sequential, hc, hrc]
  | cons d pre2 ih =>
    intro batch hpre
    have hd := hpre d (List.mem_cons_self d pre2)
    have h := ih { batch with
      successful_deployments := batch.successful_deployments ++ [rmap d] }
      (fun x hx => hpre x (List.mem_cons_of_mem d hx))
    simp only [List.cons_append, deploy_customers_sequential, hd.1, hd.2, if_true,
      List.append_eq]
    rw [h]
    simp

theorem seq_failed_monotone (deploy : String → WorkerOutcome) (environment : String)
    (continue_on_error : Bool) :
    ∀ (customers : List String) (batch : BatchDeploymentResult) (r : DeploymentResult),
      r ∈ batch.failed_deployments →
      r ∈ (deploy_customers_sequential deploy environment continue_on_error customers batch).1.failed_deployments := by
  intro customers
  induction customers with
  | nil => intro batch r hr; exact hr
  | cons d rest ih =>
    intro batch r hr
    cases hd : deploy d with
    | returned rr =>
      cases hrr : rr.success with
      | true =>
        simp only [deploy_customers_sequential, hd, hrr]
        exact ih _ r hr
      | false =>
        cases continue_on_error with
        | true =>
          simp only [deploy_customers_sequential, hd, hrr, if_true]
          exact ih _ r (List.mem_append_left _ hr)
        | false =>
          simp only [deploy_customers_sequential, hd, hrr]
          simp only [Bool.false_eq_true, if_false]
          exact List.mem_append_left _ hr
    | raised msg =>
      cases continue_on_error with
      | true =>
        simp only [deploy_customers_sequential, hd, if_true]
        exact ih _ r (List.mem_append_left _ hr)
      | false =>
        simp only [deploy_customers_sequential, hd]
        simp only [Bool.false_eq_true, if_false]
        exact List.mem_append_left _ hr

theorem par_failed_monotone (environment : String) (continue_on_error : Bool) :
    ∀ (completions : List (String × WorkerOutcome)) (batch : BatchDeploymentResult)
      (r : DeploymentResult),
      r ∈ batch.failed_deployments →
      r ∈ (deploy_customers_parallel_drain environment continue_on_error completions batch).failed_deployments := by
  intro completions
  induction completions with
  | nil => intro batch r hr; exact hr
  | cons hd rest ih =>
    intro batch r hr
    obtain ⟨c, outcome⟩ := hd
    cases outcome with
    | returned rr =>
      cases hrr : rr.success with
      | true =>
        simp only [deploy_customers_parallel_drain, hrr]
        exact ih _ r hr
      | false =>
        cases continue_on_error with
        | true =>
          simp only [deploy_customers_parallel_drain, hrr, if_true]
          exact ih _ r (List.mem_append_left _ hr)
        | false =>
          simp only [deploy_customers_parallel_drain, hrr]
          simp only [Bool.false_eq_true, if_false]
          exact List.mem_append_left _ hr
    | raised msg =>
      simp only [deploy_customers_parallel_drain]
      exact ih _ r (List.mem_append_left _ hr)

theorem seq_raised_recorded (deploy : String → WorkerOutcome) (environment : String) :
    ∀ (customers : List String) (batch : BatchDeploymentResult) (c msg : String),
      c ∈ customers → deploy c = WorkerOutcome.raised msg →
      synthetic_failed_result c environment msg ∈
        (deploy_customers_sequential deploy environment true customers batch).1.failed_deployments := by
  intro customers
  induction customers with
  | nil => intro batch c msg hmem; exact absurd hmem (List.not_mem_nil c)
  | cons d rest ih =>
    intro batch c msg hmem hraised
    rcases List.mem_cons.mp hmem with heq | hmem2
    · subst heq
      simp only [deploy_customers_sequential, hraised, if_true]
      exact seq_failed_monotone deploy environment true rest _ _
        (List.mem_append_right _ (List.mem_singleton.mpr rfl))
    · cases hd : deploy d with
      | returned rr =>
        cases hrr : rr.success with
        | true =>
          simp only [deploy_customers_sequential, hd, hrr]
          exact ih _ c msg hmem2 hraised
        | false =>
          simp only [deploy_customers_sequential, hd, hrr, if_true]
          exact ih _ c msg hmem2 hraised
      | raised m2 =>
        simp only [deploy_customers_sequential, hd, if_true]
        exact ih _ c msg hmem2 hraised

theorem par_raised_recorded (environment : String) :
    ∀ (completions : List (String × WorkerOutcome)) (batch : BatchDeploymentResult)
      (c msg : String),
      (c, WorkerOutcome.raised msg) ∈ completions →
      synthetic_failed_result c environment msg ∈
        (deploy_customers_parallel_drain environment true completions batch).failed_deployments := by
  intro completions
  induction completions with
  | nil => intro batch c msg hmem; exact absurd hmem (List.not_mem_nil _)
  | cons hd rest ih =>
    intro batch c msg hmem
    rcases List.mem_cons.mp hmem with heq | hmem2
    · subst heq
      simp only [deploy_customers_parallel_drain]
      exact par_failed_monotone environment true rest _ _
        (List.mem_append_right _ (List.mem_singleton.mpr rfl))
    · obtain ⟨c2, outcome⟩ := hd
      cases outcome with
      | returned rr =>
        cases hrr : rr.success with
        | true =>
          simp only [deploy_customers_parallel_drain, hrr]
          exact ih _ c msg hmem2
        | false =>
          simp only [deploy_customers_parallel_drain, hrr, if_true]
          exact ih _ c msg hmem2
      | raised m2 =>
        simp only [deploy_customers_parallel_drain]
        exact ih _ c msg hmem2

theorem seq_failed_origin (deploy : String → WorkerOutcome) (environment : String)
    (continue_on_error : Bool) :
    ∀ (customers : List String) (batch : BatchDeploymentResult) (r : DeploymentResult),
      r ∈ (deploy_customers_sequential deploy environment continue_on_error customers batch).1.failed_deployments →
      r ∈ batch.failed_deployments ∨
      ∃ c ∈ customers, deploy c = WorkerOutcome.returned r ∨
        ∃ msg, deploy c = WorkerOutcome.raised msg ∧
          r = synthetic_failed_result c environment msg := by
  intro customers
  induction customers with
  | nil => intro batch r hr; exact Or.inl hr
  | cons d rest ih =>
    intro batch r hr
    have step :
        ∀ batch2 : BatchDeploymentResult,
          r ∈ batch2.failed_deployments →
          batch2.failed_deployments = batch.failed_deployments ∨
          (∃ rr, batch2.failed_deployments = batch.failed_deployments ++ [rr] ∧
            (deploy d = WorkerOutcome.returned rr ∨
              ∃ msg, deploy d = WorkerOutcome.raised msg ∧
                rr = synthetic_failed_result d environment msg)) →
          r ∈ batch.failed_deployments ∨
          ∃ c ∈ d :: rest, deploy c = WorkerOutcome.returned r ∨
            ∃ msg, deploy c = WorkerOutcome.raised msg ∧
              r = synthetic_failed_result c environment msg := by
      intro batch2 hr2 hshape
      rcases hshape with heq | ⟨rr, heq, hrr⟩
      · rw [heq] at hr2; exact Or.inl hr2
      · rw [heq] at hr2
        rcases List.mem_append.mp hr2 with hold | hnew
        · exact Or.inl hold
        · right
          refine ⟨d, List.mem_cons_self d rest, ?_⟩
          rw [List.mem_singleton.mp hnew]
          exact hrr
    cases hd : deploy d with
    | returned rr =>
      cases hrr : rr.success with
      | true =>
        simp only [deploy_customers_sequential, hd, hrr] at hr
        rcases ih _ r hr with hold | ⟨c, hcmem, hcase⟩
        · exact Or.inl hold
        · exact Or.inr ⟨c, List.mem_cons_of_mem d hcmem, hcase⟩
      | false =>
        cases continue_on_error with
        | true =>
          simp only [deploy_customers_sequential, hd, hrr, if_true] at hr
          rcases ih _ r hr with hold | ⟨c, hcmem, hcase⟩
          · exact step
              { batch with failed_deployments := batch.failed_deployments ++ [rr] }
              hold (Or.inr ⟨rr, rfl, Or.inl hd⟩)
          · exact Or.inr ⟨c, List.mem_cons_of_mem d hcmem, hcase⟩
        | false =>
          simp only [deploy_customers_sequential, hd, hrr, Bool.false_eq_true, if_false] at hr
          exact step
            { batch with failed_deployments := batch.failed_deployments ++ [rr] }
            hr (Or.inr ⟨rr, rfl, Or.inl hd⟩)
    | raised msg =>
      cases continue_on_error with
      | true =>
        simp only [deploy_customers_sequential, hd, if_true] at hr
        rcases ih _ r hr with hold | ⟨c, hcmem, hcase⟩
        · exact step
            { batch with failed_deployments :=
                batch.failed_deployments ++ [synthetic_failed_result d environment msg] }
            hold (Or.inr ⟨synthetic_failed_result d environment msg, rfl,
              Or.inr ⟨msg, hd, rfl⟩⟩)
        · exact Or.inr ⟨c, List.mem_cons_of_mem d hcmem, hcase⟩
      | false =>
        simp only [deploy_customers_sequential, hd, Bool.false_eq_true, if_false] at hr
        exact step
          { batch with failed_deployments :=
              batch.failed_deployments ++ [synthetic_failed_result d environment msg] }
          hr (Or.inr ⟨synthetic_failed_result d environment msg, rfl,
            Or.inr ⟨msg, hd, rfl⟩⟩)

/-! ## Claim C7 -/

/-- C7: in sequential batch mode with `continue_on_error = false`,
customers are attempted in input order, the first returned failure stops
the loop: the successful list holds exactly the results of the customers
before the failure, the failed list holds exactly the failing result, and
the attempted customers are exactly the initial segment up to and including the
failing one — later customers are never attempted and appear in neither
list. -/
theorem claim7_sequential_stops_at_first_failure (deploy : String → WorkerOutcome)
    (rmap : String → DeploymentResult) (environment : String)
    (pre post : List String) (c : String) (rc : DeploymentResult)
    (hpre : ∀ d ∈ pre, deploy d = WorkerOutcome.returned (rmap d) ∧ (rmap d).success = true)
    (hc : deploy c = WorkerOutcome.returned rc) (hrc : rc.success = false) :
    (deploy_multiple_customers_sequential deploy (pre ++ c :: post) environment false).1.successful_deployments
      = pre.map rmap ∧
    (deploy_multiple_customers_sequential deploy (pre ++ c :: post) environment false).1.failed_deployments
      = [rc] ∧
    (deploy_multiple_customers_sequential deploy (pre ++ c :: post) environment false).1.success_count
      = pre.length ∧
    (deploy_multiple_customers_sequential deploy (pre ++ c :: post) environment false).1.failure_count
      = 1 ∧
    (deploy_multiple_customers_sequential deploy (pre ++ c :: post) environment false).2
      = pre ++ [c] := by
  have h := seq_stop_characterization deploy rmap environment c rc post hc hrc pre
    { environment := environment, total_customers := (pre ++ c :: post).length } hpre
  unfold deploy_multiple_customers_sequential
  rw [h]
  simp [BatchDeploymentResult.success_count, BatchDeploymentResult.failure_count]

/-- The successful outcome handed to the customers before the failing
one in the C7 concrete run. -/
def claim7_ok : DeploymentResult :=
  { customer_name := "p", environment := "dev",
    status := DeploymentStatus.DEPLOYED, success := true }

/-- The failing outcome of customer `f` in the C7 concrete run. -/
def claim7_fail : DeploymentResult :=
  { customer_name := "f", environment := "dev",
    status := DeploymentStatus.FAILED, success := false }

/-- Worker behaviour for the C7 concrete run: `f` fails, others succeed. -/
def claim7_deploy (customer : String) : WorkerOutcome :=
  if customer = "f" then WorkerOutcome.returned claim7_fail
  else WorkerOutcome.returned claim7_ok

/-- C7 witness: the concrete scenario D — three customers, the second
fails — gives one success, one failure, and the third is not attempted. -/
theorem claim7_witness :
    (claim7_deploy "f" = WorkerOutcome.returned claim7_fail) ∧
    claim7_fail.success = false ∧
    (∀ d ∈ (["p"] : List String),
      claim7_deploy d = WorkerOutcome.returned claim7_ok ∧ claim7_ok.success = true) ∧
    (deploy_multiple_customers_sequential claim7_deploy ["p", "f", "q"] "dev" false).1.success_count = 1 ∧
    (deploy_multiple_customers_sequential claim7_deploy ["p", "f", "q"] "dev" false).1.failure_count = 1 ∧
    (deploy_multiple_customers_sequential claim7_deploy ["p", "f", "q"] "dev" false).2 = ["p", "f"] := by
  have h := claim7_sequential_stops_at_first_failure claim7_deploy (fun _ => claim7_ok)
    "dev" ["p"] ["q"] "f" claim7_fail (by decide) rfl rfl
  exact ⟨rfl, rfl, by decide, h.2.2.1, h.2.2.2.1, h.2.2.2.2⟩

theorem seq_raised_after_successes_recorded (deploy : String → WorkerOutcome)
    (environment : String) (continue_on_error : Bool) :
    ∀ (pre : List String) (c msg : String) (rest : List String)
      (batch : BatchDeploymentResult),
      (∀ d ∈ pre, ∃ r : DeploymentResult,
        deploy d = WorkerOutcome.returned r ∧ r.success = true) →
      deploy c = WorkerOutcome.raised msg →
      synthetic_failed_result c environment msg ∈
        (deploy_customers_sequential deploy environment continue_on_error
          (pre ++ c :: rest) batch).1.failed_deployments := by
  intro pre
  induction pre with
  | nil =>
    intro c msg rest batch hpre hraised
    cases continue_on_error with
    | true =>
      simp only [List.nil_append, deploy_customers_sequential, hraised, if_true]
      exact seq_failed_monotone deploy environment true rest _ _
        (List.mem_append_right _ (List.mem_singleton.mpr rfl))
    | false =>
      simp only [List.nil_append, deploy_customers_sequential, hraised,
        Bool.false_eq_true, if_false]
      exact List.mem_append_right _ (List.mem_singleton.mpr rfl)
  | cons d pre2 ih =>
    intro c msg rest batch hpre hraised
    obtain ⟨r, hd, hr⟩ := hpre d (List.mem_cons_self d pre2)
    simp only [List.cons_append, deploy_customers_sequential, hd, hr]
    exact ih c msg rest _ (fun x hx => hpre x (List.mem_cons_of_mem d hx)) hraised

theorem par_raised_before_returned_failure_recorded (environment : String)
    (continue_on_error : Bool) :
    ∀ (pre rest : List (String × WorkerOutcome)) (c msg : String)
      (batch : BatchDeploymentResult),
      (∀ p ∈ pre, ∀ r : DeploymentResult,
        p.2 = WorkerOutcome.returned r → r.success = true) →
      synthetic_failed_result c environment msg ∈
        (deploy_customers_parallel_drain environment continue_on_error
          (pre ++ (c, WorkerOutcome.raised msg) :: rest) batch).failed_deployments := by
  intro pre
  induction pre with
  | nil =>
    intro rest c msg batch hpre
    simp only [List.nil_append, deploy_customers_parallel_drain]
    exact par_failed_monotone environment continue_on_error rest _ _
      (List.mem_append_right _ (List.mem_singleton.mpr rfl))
  | cons p pre2 ih =>
    intro rest c msg batch hpre
    obtain ⟨c2, o⟩ := p
    cases o with
    | returned r =>
      have hr : r.success = true :=
        hpre (c2, WorkerOutcome.returned r) (List.mem_cons_self _ _) r rfl
      simp only [List.cons_append, deploy_customers_parallel_drain, hr]
      exact ih rest c msg _ (fun q hq => hpre q (List.mem_cons_of_mem _ hq))
    | raised m2 =>
      simp only [List.cons_append, deploy_customers_parallel_drain]
      exact ih rest c msg _ (fun q hq => hpre q (List.mem_cons_of_mem _ hq))

theorem par_failed_origin (environment : String) (continue_on_error : Bool) :
    ∀ (completions : List (String × WorkerOutcome)) (batch : BatchDeploymentResult)
      (r : DeploymentResult),
      r ∈ (deploy_customers_parallel_drain environment continue_on_error
            completions batch).failed_deployments →
      r ∈ batch.failed_deployments ∨
      (∃ c, (c, WorkerOutcome.returned r) ∈ completions) ∨
      (∃ c msg, (c, WorkerOutcome.raised msg) ∈ completions ∧
        r = synthetic_failed_result c environment msg) := by
  intro completions
  induction completions with
  | nil => intro batch r hr; exact Or.inl hr
  | cons p rest ih =>
    intro batch r hr
    obtain ⟨c2, o⟩ := p
    cases o with
    | returned rr =>
      cases hrr : rr.success with
      | true =>
        simp only [deploy_customers_parallel_drain, hrr] at hr
        rcases ih _ r hr with hold | hfound
        · exact Or.inl hold
        · rcases hfound with ⟨c, hc⟩ | ⟨c, msg, hc, heq⟩
          · exact Or.inr (Or.inl ⟨c, List.mem_cons_of_mem _ hc⟩)
          · exact Or.inr (Or.inr ⟨c, msg, List.mem_cons_of_mem _ hc, heq⟩)
      | false =>
        cases continue_on_error with
        | true =>
          simp only [deploy_customers_parallel_drain, hrr, if_true] at hr
          rcases ih _ r hr with hold | hfound
          · rcases List.mem_append.mp hold with h1 | h2
            · exact Or.inl h1
            · rw [List.mem_singleton.mp h2]
              exact Or.inr (Or.inl ⟨c2, List.mem_cons_self _ _⟩)
          · rcases hfound with ⟨c, hc⟩ | ⟨c, msg, hc, heq⟩
            · exact Or.inr (Or.inl ⟨c, List.mem_cons_of_mem _ hc⟩)
            · exact Or.inr (Or.inr ⟨c, msg, List.mem_cons_of_mem _ hc, heq⟩)
        | false =>
          simp only [deploy_customers_parallel_drain, hrr, Bool.false_eq_true,
            if_false] at hr
          rcases List.mem_append.mp hr with h1 | h2
          · exact Or.inl h1
          · rw [List.mem_singleton.mp h2]
            exact Or.inr (Or.inl ⟨c2, List.mem_cons_self _ _⟩)
    | raised msg =>
      simp only [deploy_customers_parallel_drain] at hr
      rcases ih _ r hr with hold | hfound
      · rcases List.mem_append.mp hold with h1 | h2
        · exact Or.inl h1
        · rw [List.mem_singleton.mp h2]
          exact Or.inr (Or.inr ⟨c2, msg, List.mem_cons_self _ _, rfl⟩)
      · rcases hfound with ⟨c, hc⟩ | ⟨c, m2, hc, heq⟩
        · exact Or.inr (Or.inl ⟨c, List.mem_cons_of_mem _ hc⟩)
        · exact Or.inr (Or.inr ⟨c, m2, List.mem_cons_of_mem _ hc, heq⟩)

/-! ## Claim C9 -/

/-- The returned failing result that stops the C9 counterexample drain. -/
def claim9_failed_result : DeploymentResult :=
  { customer_name := "a", environment := "dev",
    status := DeploymentStatus.FAILED, success := false }

/-- C9 counterexample: in a parallel run with `continue_on_error = false`,
a returned failure drained first stops the collection loop, so the
exception raised by the other worker is never converted and never
recorded — no result carrying its message appears in either list, which
refutes the claim for that batch run. -/
theorem claim9_counterexample :
    (deploy_multiple_customers_parallel
        [("a", WorkerOutcome.returned claim9_failed_result),
         ("b", WorkerOutcome.raised "boom")]
        ["a", "b"] "dev" false).failed_deployments = [claim9_failed_result] ∧
    (deploy_multiple_customers_parallel
        [("a", WorkerOutcome.returned claim9_failed_result),
         ("b", WorkerOutcome.raised "boom")]
        ["a", "b"] "dev" false).successful_deployments = [] ∧
    synthetic_failed_result "b" "dev" "boom" ∉
      (deploy_multiple_customers_parallel
        [("a", WorkerOutcome.returned claim9_failed_result),
         ("b", WorkerOutcome.raised "boom")]
        ["a", "b"] "dev" false).failed_deployments ∧
    claim9_failed_result.errors = [] := by
  decide

/-- C9 as amended: an exception raised by a worker whose completion the
coordinator drains is converted into a synthetic failed result — status
FAILED, success false, the exception message as the sole error — and
recorded in the failed list: in sequential mode every attempted raising
customer is recorded (with `continue_on_error = false` it stops the
loop, but is itself recorded first), and in parallel mode every drained
raising completion is recorded — always when `continue_on_error` is
true, and otherwise as long as no returned failure was drained before
it, since a returned failure stops draining.  Every failed-list entry of
either mode is a worker-returned result or such a conversion, so no raw
exception ever escapes the coordinator; an exception completing after a
parallel early stop is discarded, not propagated. -/
theorem claim9_worker_exception_conversion :
    (∀ (deploy : String → WorkerOutcome) (customers : List String) (environment c msg : String),
      c ∈ customers → deploy c = WorkerOutcome.raised msg →
      synthetic_failed_result c environment msg ∈
        (deploy_multiple_customers_sequential deploy customers environment true).1.failed_deployments) ∧
    (∀ (deploy : String → WorkerOutcome) (pre : List String) (c msg : String)
        (rest : List String) (environment : String) (continue_on_error : Bool),
      (∀ d ∈ pre, ∃ r : DeploymentResult,
        deploy d = WorkerOutcome.returned r ∧ r.success = true) →
      deploy c = WorkerOutcome.raised msg →
      synthetic_failed_result c environment msg ∈
        (deploy_multiple_customers_sequential deploy (pre ++ c :: rest) environment
          continue_on_error).1.failed_deployments) ∧
    (∀ (completions : List (String × WorkerOutcome)) (customers : List String)
        (environment c msg : String),
      (c, WorkerOutcome.raised msg) ∈ completions →
      synthetic_failed_result c environment msg ∈
        (deploy_multiple_customers_parallel completions customers environment true).failed_deployments) ∧
    (∀ (pre rest : List (String × WorkerOutcome)) (customers : List String)
        (environment c msg : String) (continue_on_error : Bool),
      (∀ p ∈ pre, ∀ r : DeploymentResult,
        p.2 = WorkerOutcome.returned r → r.success = true) →
      synthetic_failed_result c environment msg ∈
        (deploy_multiple_customers_parallel (pre ++ (c, WorkerOutcome.raised msg) :: rest)
          customers environment continue_on_error).failed_deployments) ∧
    (∀ c environment msg : String,
      (synthetic_failed_result c environment msg).status = DeploymentStatus.FAILED ∧
      (synthetic_failed_result c environment msg).success = false ∧
      (synthetic_failed_result c environment msg).errors = [msg] ∧
      (synthetic_failed_result c environment msg).customer_name = c ∧
      (synthetic_failed_result c environment msg).environment = environment) ∧
    (∀ (deploy : String → WorkerOutcome) (customers : List String) (environment : String)
        (continue_on_error : Bool) (r : DeploymentResult),
      r ∈ (deploy_multiple_customers_sequential deploy customers environment continue_on_error).1.failed_deployments →
      ∃ c ∈ customers, deploy c = WorkerOutcome.returned r ∨
        ∃ msg, deploy c = WorkerOutcome.raised msg ∧
          r = synthetic_failed_result c environment msg) ∧
    (∀ (completions : List (String × WorkerOutcome)) (customers : List String)
        (environment : String) (continue_on_error : Bool) (r : DeploymentResult),
      r ∈ (deploy_multiple_customers_parallel completions customers environment
            continue_on_error).failed_deployments →
      (∃ c, (c, WorkerOutcome.returned r) ∈ completions) ∨
      (∃ c msg, (c, WorkerOutcome.raised msg) ∈ completions ∧
        r = synthetic_failed_result c environment msg)) := by
  refine ⟨?_, ?_, ?_, ?_, ?_, ?_, ?_⟩
  · intro deploy customers environment c msg hmem hraised
    exact seq_raised_recorded deploy environment customers _ c msg hmem hraised
  · intro deploy pre c msg rest environment continue_on_error hpre hraised
    exact seq_raised_after_successes_recorded deploy environment continue_on_error
      pre c msg rest _ hpre hraised
  · intro completions customers environment c msg hmem
    exact par_raised_recorded environment completions _ c msg hmem
  · intro pre rest customers environment c msg continue_on_error hpre
    exact par_raised_before_returned_failure_recorded environment continue_on_error
      pre rest c msg _ hpre
  · intro c environment msg
    simp [synthetic_failed_result, DeploymentResult.add_error]
  · intro deploy customers environment continue_on_error r hr
    rcases seq_failed_origin deploy environment continue_on_error customers _ r hr with
      hold | hfound
    · exact absurd hold (List.not_mem_nil r)
    · exact hfound
  · intro completions customers environment continue_on_error r hr
    rcases par_failed_origin environment continue_on_error completions _ r hr with
      hold | hfound
    · exact absurd hold (List.not_mem_nil r)
    · exact hfound

/-- Worker behaviour for the C9 witness: every customer raises. -/
def claim9_deploy (_customer : String) : WorkerOutcome :=
  WorkerOutcome.raised "boom"

/-- C9 witness: a raised worker exception in a concrete sequential run is
recorded as the synthetic failed result. -/
theorem claim9_witness :
    ("a" ∈ (["a"] : List String)) ∧
    claim9_deploy "a" = WorkerOutcome.raised "boom" ∧
    synthetic_failed_result "a" "dev" "boom" ∈
      (deploy_multiple_customers_sequential claim9_deploy ["a"] "dev" true).1.failed_deployments :=
  ⟨List.mem_singleton.mpr rfl, rfl,
    claim9_worker_exception_conversion.1 claim9_deploy ["a"] "dev" "a" "boom"
      (List.mem_singleton.mpr rfl) rfl⟩

/-! ## Claim C2 -/

/-- C2 counterexample: the `ValidationResult` dataclass accepts
`success = True` together with a non-empty error list — the invariant
`success == (len(errors) == 0)` is not enforced by the constructor. -/
theorem claim2_counterexample :
    (ValidationResult.mk true ["invalid configuration"] [] []).success = true ∧
    ¬ ((ValidationResult.mk true ["invalid configuration"] [] []).errors.length = 0) :=
  ⟨rfl, by decide⟩

/-- C2 as amended: the dataclass constructor stores `success` and
`errors` exactly as passed, independent of each other — the invariant
`success == (len(errors) == 0)` is not enforced at construction and an
inconsistent pair is constructible — while the construction sites in
`plan_deployment` do pass consistent pairs, so every `ValidationResult`
it builds satisfies the invariant. -/
theorem claim2_amended :
    (∀ (success : Bool) (errors warnings checks : List String),
      (ValidationResult.mk success errors warnings checks).success = success ∧
      (ValidationResult.mk success errors warnings checks).errors = errors) ∧
    (∀ (env : PlanEnv) (customer_name environment : String) (plan : DeploymentPlan),
      plan_deployment env customer_name environment = Except.ok plan →
      plan.validation_result.success = (plan.validation_result.errors.length == 0)) := by
  constructor
  · intro success errors warnings checks
    exact ⟨rfl, rfl⟩
  · intro env customer_name environment plan h
    cases ha : env.artifacts_outcome with
    | error e => simp only [plan_deployment, ha, reduceCtorEq] at h
    | ok arts =>
      cases hp : env.prereq_outcome with
      | error e => simp only [plan_deployment, ha, hp, reduceCtorEq] at h
      | ok prereq_check =>
        cases ht : env.terraform_plan_outcome with
        | error e => simp only [plan_deployment, ha, hp, ht, reduceCtorEq] at h
        | ok terraform_plan =>
          simp only [plan_deployment, ha, hp, ht, Except.ok.injEq] at h
          subst h
          cases hm : prereq_check.all_met with
          | true => simp [hm]
          | false => simp [hm]

/-- A fully satisfied prerequisite check for the C2 witness run. -/
def claim2_prereq : PrerequisiteCheck :=
  { terraform_available := true, configuration_valid := true, artifacts_present := true,
    workspace_accessible := true, credentials_valid := true }

/-- Collaborator outcomes for the C2 witness planning call. -/
def claim2_env : PlanEnv :=
  { artifacts_outcome := Except.ok { customer_name := "c", environment := "dev" },
    prereq_outcome := Except.ok claim2_prereq,
    terraform_plan_outcome := Except.ok { customer_name := "c", environment := "dev" } }

/-- The plan the C2 witness planning call produces. -/
def claim2_plan : DeploymentPlan :=
  { customer_name := "c", environment := "dev",
    artifacts := { customer_name := "c", environment := "dev" },
    terraform_plan := { customer_name := "c", environment := "dev" },
    validation_result := { success := true },
    estimated_duration := 60, prerequisite_checks := [] }

/-- C2 amended witness: a concrete planning call whose embedded
`ValidationResult` satisfies the invariant. -/
theorem claim2_amended_witness :
    plan_deployment claim2_env "c" "dev" = Except.ok claim2_plan ∧
    claim2_plan.validation_result.success
      = (claim2_plan.validation_result.errors.length == 0) :=
  ⟨rfl, claim2_amended.2 claim2_env "c" "dev" claim2_plan rfl⟩

/-! ## Claim C4 -/

/-- Collaborator outcomes for the C4 counterexample run: readiness
validation fails, so the deployment stops in phase 1. -/
def claim4_env : OrchEnv :=
  { validation := { success := false, errors := ["bad config"] },
    plan_env :=
      { artifacts_outcome := Except.error "unused",
        prereq_outcome := Except.error "unused",
        terraform_plan_outcome := Except.error "unused" },
    merged_config_outcome := Except.ok (),
    init_outcome := Except.error "unused",
    apply_outcome := Except.error "unused",
    verify_ok := false,
    outputs_outcome := Except.error "unused" }

/-- C4 counterexample: a hard validation failure in phase 1 returns
success False, status FAILED and the triggering error — but with
`completed_at` still unset and `deployment_time` still 0, so the
elapsed-time and completion-timestamp fields are not finalized on this
early-return path as the claim states. -/
theorem claim4_counterexample :
    (deploy_customer claim4_env "c" "dev" false).1.success = false ∧
    (deploy_customer claim4_env "c" "dev" false).1.status = DeploymentStatus.FAILED ∧
    (deploy_customer claim4_env "c" "dev" false).1.errors
      = ["Validation failed: bad config"] ∧
    (deploy_customer claim4_env "c" "dev" false).1.completed_at = none ∧
    (deploy_customer claim4_env "c" "dev" false).1.deployment_time = 0 := by
  decide

/-- C4 as amended: on every hard failure in phases 1-4 the result has
success False, status FAILED, the triggering error appended, and no later
phase recorded as completed; the elapsed-time and completion-timestamp
fields are finalized only when the failure is a raised exception caught
by the top-level handler (as for a raised planning error), while on the
early-return failure paths — readiness validation failure, plan
validation failure, infrastructure failure — `completed_at` stays unset
and `deployment_time` stays 0. -/
theorem claim4_amended (env : OrchEnv) (customer_name environment : String)
    (dry_run : Bool) :
    (env.validation.success = false →
      (deploy_customer env customer_name environment dry_run).1.success = false ∧
      (deploy_customer env customer_name environment dry_run).1.status = DeploymentStatus.FAILED ∧
      (deploy_customer env customer_name environment dry_run).1.errors ≠ [] ∧
      (deploy_customer env customer_name environment dry_run).1.phases_completed = [] ∧
      (deploy_customer env customer_name environment dry_run).1.completed_at = none ∧
      (deploy_customer env customer_name environment dry_run).1.deployment_time = 0) ∧
    (∀ plan : DeploymentPlan, env.validation.success = true →
      plan_deployment env.plan_env customer_name environment = Except.ok plan →
      plan.validation_result.success = false →
      (deploy_customer env customer_name environment dry_run).1.success = false ∧
      (deploy_customer env customer_name environment dry_run).1.status = DeploymentStatus.FAILED ∧
      (deploy_customer env customer_name environment dry_run).1.errors ≠ [] ∧
      (deploy_customer env customer_name environment dry_run).1.phases_completed
        = [DeploymentPhase.VALIDATION] ∧
      (deploy_customer env customer_name environment dry_run).1.completed_at = none ∧
      (deploy_customer env customer_name environment dry_run).1.deployment_time = 0) ∧
    (∀ msg : String, env.validation.success = true →
      plan_deployment env.plan_env customer_name environment = Except.error msg →
      (deploy_customer env customer_name environment dry_run).1.success = false ∧
      (deploy_customer env customer_name environment dry_run).1.status = DeploymentStatus.FAILED ∧
      (deploy_customer env customer_name environment dry_run).1.errors = [msg] ∧
      (deploy_customer env customer_name environment dry_run).1.phases_completed
        = [DeploymentPhase.VALIDATION] ∧
      (deploy_customer env customer_name environment dry_run).1.completed_at
        = some env.end_time ∧
      (deploy_customer env customer_name environment dry_run).1.deployment_time
        = env.end_time - env.start_time) ∧
    (∀ plan : DeploymentPlan, dry_run = false → env.validation.success = true →
      plan_deployment env.plan_env customer_name environment = Except.ok plan →
      plan.validation_result.success = true →
      env.merged_config_outcome = Except.ok () →
      (execute_deployment_phases env).1.all_successful = false →
      (deploy_customer env customer_name environment dry_run).1.success = false ∧
      (deploy_customer env customer_name environment dry_run).1.status = DeploymentStatus.FAILED ∧
      (deploy_customer env customer_name environment dry_run).1.errors ≠ [] ∧
      (deploy_customer env customer_name environment dry_run).1.phases_completed
        = [DeploymentPhase.VALIDATION, DeploymentPhase.PLANNING] ∧
      (deploy_customer env customer_name environment dry_run).1.completed_at = none ∧
      (deploy_customer env customer_name environment dry_run).1.deployment_time = 0) := by
  refine ⟨?_, ?_, ?_, ?_⟩
  · intro hval
    simp [deploy_customer, hval, DeploymentResult.add_error]
  · intro plan hval hplan hpv
    simp [deploy_customer, hval, hplan, hpv, DeploymentResult.add_error]
  · intro msg hval hplan
    simp [deploy_customer, hval, hplan, DeploymentResult.add_error]
  · intro plan hdry hval hplan hpv hmc hexec
    subst hdry
    simp [deploy_customer, hval, hplan, hpv, hmc, hexec, DeploymentResult.add_error]

/-- C4 amended witness: the phase-1 failure conjunct applied to the
concrete failing-validation run. -/
theorem claim4_amended_witness :
    claim4_env.validation.success = false ∧
    ((deploy_customer claim4_env "c" "dev" false).1.success = false ∧
      (deploy_customer claim4_env "c" "dev" false).1.status = DeploymentStatus.FAILED ∧
      (deploy_customer claim4_env "c" "dev" false).1.errors ≠ [] ∧
      (deploy_customer claim4_env "c" "dev" false).1.phases_completed = [] ∧
      (deploy_customer claim4_env "c" "dev" false).1.completed_at = none ∧
      (deploy_customer claim4_env "c" "dev" false).1.deployment_time = 0) :=
  ⟨rfl, (claim4_amended claim4_env "c" "dev" false).1 rfl⟩

/-! ## Claim C6 -/

/-- C6: a dry run in which readiness validation and planning both
succeed returns status DEPLOYED, success True, phases completed exactly
[VALIDATION, PLANNING], and never invokes the Terraform wrapper init or
apply operations. -/
theorem claim6_dry_run_short_circuit (env : OrchEnv) (customer_name environment : String)
    (plan : DeploymentPlan)
    (hval : env.validation.success = true)
    (hplan : plan_deployment env.plan_env customer_name environment = Except.ok plan)
    (hpv : plan.validation_result.success = true) :
    (deploy_customer env customer_name environment true).1.status = DeploymentStatus.DEPLOYED ∧
    (deploy_customer env customer_name environment true).1.success = true ∧
    (deploy_customer env customer_name environment true).1.phases_completed
      = [DeploymentPhase.VALIDATION, DeploymentPhase.PLANNING] ∧
    TfOp.init ∉ (deploy_customer env customer_name environment true).2 ∧
    TfOp.apply ∉ (deploy_customer env customer_name environment true).2 := by
  simp [deploy_customer, hval, hplan, hpv]

/-- Collaborator outcomes for the C6 witness dry run: validation and
planning succeed. -/
def claim6_env : OrchEnv :=
  { validation := { success := true },
    plan_env :=
      { artifacts_outcome := Except.ok { customer_name := "c", environment := "dev" },
        prereq_outcome := Except.ok claim2_prereq,
        terraform_plan_outcome := Except.ok { customer_name := "c", environment := "dev" } },
    merged_config_outcome := Except.ok (),
    init_outcome := Except.ok { success := true },
    apply_outcome := Except.ok { success := true },
    verify_ok := true,
    outputs_outcome := Except.ok [] }

/-- The plan produced by the C6 witness planning call. -/
def claim6_plan : DeploymentPlan :=
  { customer_name := "c", environment := "dev",
    artifacts := { customer_name := "c", environment := "dev" },
    terraform_plan := { customer_name := "c", environment := "dev" },
    validation_result := { success := true },
    estimated_duration := 60, prerequisite_checks := [] }

/-- C6 witness: the dry-run short circuit on a concrete run with all
prerequisites met. -/
theorem claim6_witness :
    claim6_env.validation.success = true ∧
    plan_deployment claim6_env.plan_env "c" "dev" = Except.ok claim6_plan ∧
    claim6_plan.validation_result.success = true ∧
    ((deploy_customer claim6_env "c" "dev" true).1.status = DeploymentStatus.DEPLOYED ∧
      (deploy_customer claim6_env "c" "dev" true).1.success = true ∧
      (deploy_customer claim6_env "c" "dev" true).1.phases_completed
        = [DeploymentPhase.VALIDATION, DeploymentPhase.PLANNING] ∧
      TfOp.init ∉ (deploy_customer claim6_env "c" "dev" true).2 ∧
      TfOp.apply ∉ (deploy_customer claim6_env "c" "dev" true).2) :=
  ⟨rfl, rfl, rfl, claim6_dry_run_short_circuit claim6_env "c" "dev" claim6_plan rfl rfl rfl⟩

/-! ## Claim C5 -/

/-- C5: for all dictionaries, `deep_merge` keeps every key unique to
either side with its original value, merges two mappings at a shared key
recursively key by key, and otherwise lets the second dictionary win —
the recursive equation makes the law hold at arbitrary nesting depth.
The second dictionary carries unique keys, as every Python dict does. -/
theorem claim5_deep_merge_recursive_law (dict1 dict2 : ConfigDict)
    (hnd : (dict2.map Prod.fst).Nodup) (k : String) :
    dget (deep_merge dict1 dict2) k =
      match dget dict1 k, dget dict2 k with
      | some (CVal.dict m1), some (CVal.dict m2) => some (CVal.dict (deep_merge m1 m2))
      | _, some v2 => some v2
      | some v1, none => some v1
      | none, none => none :=
  dget_deep_merge dict1 dict2 hnd k

/-- First argument of the concrete C5 merge. -/
def claim5_d1 : ConfigDict :=
  [("a", CVal.num 3), ("n", CVal.dict [("x", CVal.num 1), ("y", CVal.num 2)])]

/-- Second argument of the concrete C5 merge. -/
def claim5_d2 : ConfigDict :=
  [("n", CVal.dict [("y", CVal.num 20), ("z", CVal.num 30)]), ("c", CVal.num 4)]

/-- C5 witness: the merge law evaluated on a concrete pair — unique keys
survive on both sides and the nested maps are merged key by key. -/
theorem claim5_witness :
    ((claim5_d2.map Prod.fst).Nodup) ∧
    dget (deep_merge claim5_d1 claim5_d2) "a" = some (CVal.num 3) ∧
    dget (deep_merge claim5_d1 claim5_d2) "c" = some (CVal.num 4) ∧
    dget (deep_merge claim5_d1 claim5_d2) "n"
      = some (CVal.dict [("x", CVal.num 1), ("y", CVal.num 20), ("z", CVal.num 30)]) := by
  refine ⟨by decide, ?_, ?_, ?_⟩
  · exact (claim5_deep_merge_recursive_law claim5_d1 claim5_d2 (by decide) "a").trans (by rfl)
  · exact (claim5_deep_merge_recursive_law claim5_d1 claim5_d2 (by decide) "c").trans (by rfl)
  · exact (claim5_deep_merge_recursive_law claim5_d1 claim5_d2 (by decide) "n").trans (by rfl)

/-! ## Claim C1 -/

/-- Default fragments for the concrete C1 resolution. -/
def claim1_defaults : DefaultsConfig :=
  { architecture := [], environments := [("dev", [("x", CVal.num 1)])] }

/-- Customer base layer for the concrete C1 resolution; its leaf `x`
collides with the environment-category default leaf `x`. -/
def claim1_customer_base : ConfigDict :=
  [("customer", CVal.dict [("name", CVal.str "Acme"), ("prefix", CVal.str "acme")]),
   ("capacity", CVal.dict [("fabric_capacity_id", CVal.str "F64")]),
   ("architecture", CVal.dict []),
   ("x", CVal.num 2)]

/-- The effective configuration the code produces for the C1 inputs. -/
def claim1_merged : ConfigDict :=
  [("customer", CVal.dict [("name", CVal.str "Acme"), ("prefix", CVal.str "acme")]),
   ("capacity", CVal.dict [("fabric_capacity_id", CVal.str "F64")]),
   ("architecture", CVal.dict []),
   ("x", CVal.num 1),
   ("environment", CVal.dict [("name", CVal.str "dev")])]

/-- C1 counterexample: on a leaf present in both the environment-category
defaults (`x = 1`) and the customer base (`x = 2`), the configuration
produced by `load_merged_config` carries the environment-category default
value, not the customer base value, and differs from the spec-order
composition — the code merges customer base before the
environment-category defaults. -/
theorem claim1_counterexample :
    load_merged_config claim1_defaults claim1_customer_base [] "dev"
      = Except.ok claim1_merged ∧
    dget claim1_merged "x" = some (CVal.num 1) ∧
    dget claim1_customer_base "x" = some (CVal.num 2) ∧
    dget ((claim1_defaults.environments.lookup "dev").getD []) "x" = some (CVal.num 1) ∧
    dget (resolve_spec_order claim1_defaults claim1_customer_base [] "dev") "x"
      = some (CVal.num 2) :=
  ⟨rfl, rfl, rfl, rfl, rfl⟩

/-- C1 as amended: the effective configuration is the deep merge in
increasing precedence global defaults, then customer base, then
environment-category defaults, then environment override; in particular,
for any leaf present in the environment-category defaults — also when the
customer base carries the same leaf — whose key the environment override
does not touch, the environment-category default value wins in the
produced configuration. -/
theorem claim1_amended (defaults : DefaultsConfig) (customer_base env_override : ConfigDict)
    (environment k : String) (v : CVal) (m : ConfigDict)
    (hk : k ≠ "environment")
    (hnd_env : ((((defaults.environments.lookup environment)).getD []).map Prod.fst).Nodup)
    (hleaf : dget ((defaults.environments.lookup environment).getD []) k = some v)
    (hscalar : v.isDict = false)
    (hno_override : dget env_override k = none)
    (hok : load_merged_config defaults customer_base env_override environment = Except.ok m) :
    dget m k = some v := by
  simp only [load_merged_config] at hok
  split at hok
  · rw [Except.ok.injEq] at hok
    subst hok
    rw [dget_setKey_ne _ _ _ _ hk, dget_deep_merge_of_not_mem _ _ _ hno_override,
      dget_deep_merge _ _ hnd_env k, hleaf]
    cases v with
    | dict m2 => simp [CVal.isDict] at hscalar
    | str s =>
      cases hm2 : dget (deep_merge (deep_merge [] defaults.architecture) customer_base) k with
      | none => rfl
      | some v1 => cases v1 <;> rfl
    | bool b =>
      cases hm2 : dget (deep_merge (deep_merge [] defaults.architecture) customer_base) k with
      | none => rfl
      | some v1 => cases v1 <;> rfl
    | num n =>
      cases hm2 : dget (deep_merge (deep_merge [] defaults.architecture) customer_base) k with
      | none => rfl
      | some v1 => cases v1 <;> rfl
  · simp at hok

/-- C1 amended witness: the environment-category default leaf wins in the
concrete resolution. -/
theorem claim1_amended_witness :
    ("x" ≠ "environment") ∧
    dget ((claim1_defaults.environments.lookup "dev").getD []) "x" = some (CVal.num 1) ∧
    (CVal.num 1).isDict = false ∧
    dget ([] : ConfigDict) "x" = none ∧
    dget claim1_merged "x" = some (CVal.num 1) := by
  refine ⟨by decide, rfl, rfl, rfl, ?_⟩
  have hok : load_merged_config claim1_defaults claim1_customer_base [] "dev"
      = Except.ok claim1_merged := rfl
  exact claim1_amended claim1_defaults claim1_customer_base [] "dev" "x" (CVal.num 1)
    claim1_merged (by decide) (by decide) rfl rfl rfl hok

/-! ## Claim C8 -/

/-- Customer base for the concrete C8 resolution: the customer section
is missing its name and the capacity section is missing its identifier. -/
def claim8_customer_base : ConfigDict :=
  [("customer", CVal.dict []), ("architecture", CVal.dict []), ("capacity", CVal.dict [])]

/-- Default fragments for the concrete C8 resolution. -/
def claim8_defaults : DefaultsConfig := { architecture := [], environments := [] }

/-- C8 counterexample: the merged configuration is missing both the
customer name and the capacity identifier, yet `resolve` fails with the
customer-name error alone — field-level problems are reported one at a
time, not all together. -/
theorem claim8_counterexample :
    load_merged_config claim8_defaults claim8_customer_base [] "dev"
      = Except.error "Merged config validation failed: Customer name is required" ∧
    truthy (dget ([] : ConfigDict) "name") = false ∧
    truthy (dget ([] : ConfigDict) "fabric_capacity_id") = false :=
  ⟨rfl, rfl, rfl⟩

/-- C8 as amended: only the missing top-level sections are aggregated —
when any of customer, architecture or capacity is absent the error lists
every absent section — while the field-level checks raise on the first
violation found: with all sections present and an empty customer name,
the error reports only the customer name, whatever else is invalid. -/
theorem claim8_amended :
    (∀ config : ConfigDict,
      (["customer", "architecture", "capacity"].filter (fun s => (dget config s).isNone)) ≠ [] →
      validate_merged_config config =
        Except.error ("Merged config validation failed: Missing required configuration sections: "
          ++ String.intercalate ", "
            (["customer", "architecture", "capacity"].filter (fun s => (dget config s).isNone)))) ∧
    (∀ (config customer : ConfigDict),
      dget config "customer" = some (CVal.dict customer) →
      (dget config "architecture").isNone = false →
      (dget config "capacity").isNone = false →
      truthy (dget customer "name") = false →
      validate_merged_config config
        = Except.error "Merged config validation failed: Customer name is required") := by
  constructor
  · intro config hne
    rw [validate_merged_config, if_pos]
    simp [List.isEmpty_iff, hne]
  · intro config customer hcust harch hcap hname
    have hm : (["customer", "architecture", "capacity"].filter
        (fun s => (dget config s).isNone)) = [] := by
      simp [List.filter, hcust, harch, hcap]
    rw [validate_merged_config]
    simp only [hm, List.isEmpty_nil, Bool.not_true, Bool.false_eq_true, if_false, hcust,
      hname, Bool.not_false, if_true]

/-- Configuration for the C8 amended witness: two sections absent. -/
def claim8_wcfg : ConfigDict := [("architecture", CVal.dict [])]

/-- C8 amended witness: both absent sections are listed in one error. -/
theorem claim8_amended_witness :
    ((["customer", "architecture", "capacity"].filter
        (fun s => (dget claim8_wcfg s).isNone)) ≠ []) ∧
    validate_merged_config claim8_wcfg
      = Except.error
          "Merged config validation failed: Missing required configuration sections: customer, capacity" := by
  refine ⟨by decide, ?_⟩
  have h := claim8_amended.1 claim8_wcfg (by decide)
  exact h

/-! ## Claim C10 -/

theorem build_template_variables_environment (merged_config : ConfigDict)
    (environment now : String) (env_info : ConfigDict) (tv : ConfigDict)
    (h : build_template_variables merged_config environment now env_info = Except.ok tv) :
    dget tv "environment" = some (CVal.dict env_info) := by
  unfold build_template_variables at h
  repeat' split at h
  all_goals try simp_all [dget]
  split at h
  · simp at h
  · rw [Except.ok.injEq] at h
    subst h
    simp [dget]

/-- C10: `prepare_template_variables` mutates the merged configuration
passed to it — its `environment` sub-map gains the `name` and
`debug_mode` keys in place, every other key of the input is untouched,
and the returned template variables share that same updated sub-map —
with the in-place update embedded as the explicitly returned post-state
of the input dictionary. -/
theorem claim10_prepare_template_variables_mutates (merged_config : ConfigDict)
    (environment now : String) (env_dict : ConfigDict)
    (h : dget merged_config "environment" = some (CVal.dict env_dict)) :
    dget (prepare_template_variables merged_config environment now).1 "environment"
      = some (CVal.dict (setKey (setKey env_dict "name" (CVal.str environment)) "debug_mode"
          ((dget merged_config "debug_mode").getD (CVal.bool false)))) ∧
    (∀ k2 : String, k2 ≠ "environment" →
      dget (prepare_template_variables merged_config environment now).1 k2
        = dget merged_config k2) ∧
    (∀ tv : ConfigDict,
      (prepare_template_variables merged_config environment now).2 = Except.ok tv →
      dget tv "environment"
        = dget (prepare_template_variables merged_config environment now).1 "environment") := by
  refine ⟨?_, ?_, ?_⟩
  · simp only [prepare_template_variables, h]
    exact dget_setKey_self _ _ _
  · intro k2 hk2
    simp only [prepare_template_variables, h]
    exact dget_setKey_ne _ _ _ _ hk2
  · intro tv htv
    simp only [prepare_template_variables, h] at htv ⊢
    rw [dget_setKey_self]
    exact build_template_variables_environment _ _ _ _ _ htv

/-- Merged configuration for the C10 witness call. -/
def claim10_cfg : ConfigDict :=
  [("environment", CVal.dict [("workspace_id", CVal.str "w-1")]),
   ("customer", CVal.dict [("name", CVal.str "Acme")]),
   ("capacity", CVal.dict [])]

/-- C10 witness: the concrete call updates the environment sub-map of the
input in place with name and debug_mode. -/
theorem claim10_witness :
    dget claim10_cfg "environment" = some (CVal.dict [("workspace_id", CVal.str "w-1")]) ∧
    dget (prepare_template_variables claim10_cfg "dev" "t0").1 "environment"
      = some (CVal.dict (setKey (setKey [("workspace_id", CVal.str "w-1")] "name"
          (CVal.str "dev")) "debug_mode"
          ((dget claim10_cfg "debug_mode").getD (CVal.bool false)))) :=
  ⟨rfl, (claim10_prepare_template_variables_mutates claim10_cfg "dev" "t0"
    [("workspace_id", CVal.str "w-1")] rfl).1⟩

end FabricDeployment
